import Mathlib

/-!
Verification of the core algorithms of the "Scrapy Spider Manager" plugin
repository: the proxy-rotation middleware (`plugins/proxy_rotator_plugin.py`),
the log analyzer (`plugins/log_analyzer_plugin.py`), the settings advisor
(`plugins/settings_advisor_plugin.py`) and the file API path-containment check
(`plugins/file_api_plugin.py`).

The Python code is shallowly embedded: mutable middleware state becomes an
explicit state record threaded through functions, Python dicts become
insertion-ordered association lists, `random.choice lst` becomes `lst[pick %
lst.length]` for a universally quantified `pick`, `time.time()` becomes an
explicit `now : Nat` argument, and code that can raise returns `Option`
(`none` = an exception propagates out of the modelled function).
-/

namespace SpiderPlugins

/-! ## String primitives

The Python string operations the plugins use (`strip`, `startswith`, `in`,
`split`) are implemented over `List Char` so that every definition evaluates
by kernel reduction on concrete inputs. -/

/-- `pre` is a prefix of the character list `cs` (`str.startswith`). -/
def charsPrefix : List Char → List Char → Bool
  | [], _ => true
  | _, [] => false
  | a :: pre, b :: cs => a == b && charsPrefix pre cs

/-- `needle in hay` — substring containment (nonempty or empty needle). -/
def charsContains (hay needle : List Char) : Bool :=
  match hay with
  | [] => charsPrefix needle []
  | _ :: rest => charsPrefix needle hay || charsContains rest needle

/-- `s.startswith pre`. -/
def strStartsWith (s pre : String) : Bool := charsPrefix pre.data s.data

/-- `needle in s`. -/
def strContains (s needle : String) : Bool := charsContains s.data needle.data

/-- Strip every leading and trailing occurrence of the character `c`
(`str.strip("'")`, `str.strip(",")`). -/
def charsStripChar (c : Char) (cs : List Char) : List Char :=
  ((cs.dropWhile (· == c)).reverse.dropWhile (· == c)).reverse

/-- `str.strip()` — remove leading and trailing whitespace. -/
def charsStripWs (cs : List Char) : List Char :=
  ((cs.dropWhile Char.isWhitespace).reverse.dropWhile Char.isWhitespace).reverse

/-- `str.strip()` on `String`. -/
def pyStripWs (s : String) : String := ⟨charsStripWs s.data⟩

/-- Worker for `charsSplitOn`: structural recursion on a fuel that starts at
the length of the input, which bounds the number of consumed characters. -/
def splitOnGo (sep : List Char) : Nat → List Char → List Char → List (List Char)
  | _, [], acc => [acc.reverse]
  | 0, cs, acc => [acc.reverse ++ cs]
  | fuel + 1, c :: rest, acc =>
      if sep ≠ [] && charsPrefix sep (c :: rest) then
        acc.reverse :: splitOnGo sep fuel (rest.drop (sep.length - 1)) []
      else splitOnGo sep fuel rest (c :: acc)

/-- `str.split(sep)` for a nonempty separator: split at every
(non-overlapping, leftmost-first) occurrence, keeping empty parts. -/
def charsSplitOn (sep cs : List Char) : List (List Char) :=
  splitOnGo sep cs.length cs []

/-- `str.split(sep)` on `String`. -/
def strSplitOn (s sep : String) : List String :=
  (charsSplitOn sep.data s.data).map (fun cs => ⟨cs⟩)

/-- `text.splitlines()` for texts whose line ends are `\n` (the only line
ends occurring in the proxy lists and logs modelled here). -/
def splitLines (s : String) : List String := strSplitOn s "\n"

/-! ## Proxy rotation middleware (`ProxyRotatorMiddleware`)

State of a `ProxyRotatorMiddleware` instance: the fields assigned in
`__init__` that the modelled methods read or write.  `failed_proxies` models
the Python dict `{proxy_url: failure_timestamp}` as an insertion-ordered
association list whose keys are unique in any state the middleware actually
builds.  Timestamps are `Nat` seconds.  -/
structure MWState where
  enabled : Bool
  mode : String
  fail_codes : List Nat
  fail_timeout : Nat
  proxies : List String
  failed_proxies : List (String × Nat)
  proxy_index : Nat
  last_refresh_time : Nat
deriving Repr, DecidableEq

/-- `p in self.failed_proxies` — dict key membership. -/
def isFailed (fp : List (String × Nat)) (p : String) : Bool :=
  fp.any (fun e => e.1 == p)

/-- `self.failed_proxies[proxy] = t` — dict assignment: overwrite the entry if
the key is present, otherwise append it. -/
def dictSet (fp : List (String × Nat)) (p : String) (t : Nat) : List (String × Nat) :=
  if isFailed fp p then fp.map (fun e => if e.1 == p then (p, t) else e)
  else fp ++ [(p, t)]

/-- `_clear_expired_failures`: if `fail_timeout` is falsy (0) do nothing, else
delete every entry with `now - t > fail_timeout` (Nat subtraction agrees with
the Python float subtraction here because a negative difference compares
below the positive timeout exactly when the truncated difference 0 does). -/
def clearExpiredFailures (timeout now : Nat) (fp : List (String × Nat)) : List (String × Nat) :=
  if timeout = 0 then fp
  else fp.filter (fun e => decide (now - e.2 ≤ timeout))

/-- The `for i in range(len(self.proxies))` walk of sequential mode:
`candidate = self.proxies[(start + i) % len(self.proxies)]`, returning the
first candidate not in `failed_proxies`.  `idx` is `start + i`; the second
argument counts the remaining iterations (initially `len(proxies)`). -/
def seqWalkGo (proxies : List String) (fp : List (String × Nat)) : Nat → Nat → Option String
  | _, 0 => none
  | idx, k + 1 =>
      if isFailed fp (proxies.getD (idx % proxies.length) "") then
        seqWalkGo proxies fp (idx + 1) k
      else some (proxies.getD (idx % proxies.length) "")

/-- The selection step shared by both rotation modes, applied after the
availability computation of `_get_proxy`: `fp` is the (possibly cleared)
failure map and `avail` the `available_proxies` list.  `random.choice avail`
is modelled as `avail[pick % avail.length]`; quantifying theorems over `pick`
covers every possible behaviour of `random.choice`. -/
def selectFrom (s : MWState) (fp : List (String × Nat)) (avail : List String)
    (pick : Nat) : Option String × MWState :=
  if s.mode = "sequential" then
    let n := s.proxies.length
    let start := s.proxy_index % n
    match seqWalkGo s.proxies fp start n with
    | some c =>
        (some c, { s with failed_proxies := fp,
                          proxy_index := (s.proxies.indexOf c + 1) % n })
    | none =>
        -- `if not selected_proxy and available_proxies:` fallback
        if avail = [] then (none, { s with failed_proxies := fp })
        else
          let c := avail.getD (pick % avail.length) ""
          (some c, { s with failed_proxies := fp,
                            proxy_index := (s.proxies.indexOf c + 1) % n })
  else
    if avail = [] then (none, { s with failed_proxies := fp })
    else (some (avail.getD (pick % avail.length) ""), { s with failed_proxies := fp })

/-- `_get_proxy`, in a configuration where `_refresh_proxies_if_needed`
returns immediately (any non-`url` proxy source, or an unexpired refresh
interval — the method then has no effect on the state). -/
def getProxy (s : MWState) (now pick : Nat) : Option String × MWState :=
  if s.proxies = [] then (none, s)
  else
    let fp1 := clearExpiredFailures s.fail_timeout now s.failed_proxies
    let avail1 := s.proxies.filter (fun p => !(isFailed fp1 p))
    if avail1 = [] then
      -- all proxies recently failed: clear the failure map and retry
      if s.proxies = [] then (none, { s with failed_proxies := [] })
      else selectFrom s [] s.proxies pick
    else selectFrom s fp1 avail1 pick

/-- `_mark_failed`: `if proxy:` — `None` and the empty string are falsy. -/
def markFailed (fp : List (String × Nat)) (proxy : Option String) (now : Nat) :
    List (String × Nat) :=
  match proxy with
  | none => fp
  | some p => if p = "" then fp else dictSet fp p now

/-- `process_response`, polymorphic in the response object `α` so that the
theorem "the very response passed in is returned" is expressible.
`metaProxy` is `request.meta.get('_proxy_rotator_current')`. -/
def processResponse {α : Type} (s : MWState) (status : α → Nat)
    (metaProxy : Option String) (response : α) (now : Nat) : α × MWState :=
  if s.enabled = false then (response, s)
  else if s.fail_codes.contains (status response) then
    (response, { s with failed_proxies := markFailed s.failed_proxies metaProxy now })
  else (response, s)

/-- Outcome of the `requests.get(self.proxy_url_setting, timeout=15)` /
`raise_for_status()` pair in `_load_proxies`: either the fetched body text or
a raised `requests.RequestException`. -/
inductive FetchResult where
  | success (body : String) : FetchResult
  | requestError (msg : String) : FetchResult
deriving Repr, DecidableEq

/-- `urlparse(p).scheme in ('http', 'https') and parsed.netloc` for the
lower-case URLs of a proxy list: the scheme prefix must be present and the
authority component (up to the next `/`) must be non-empty. -/
def validProxyUrl (p : String) : Bool :=
  let netlocNonempty (rest : List Char) : Bool :=
    !(rest.takeWhile (fun c => c ≠ '/')).isEmpty
  if strStartsWith p "http://" then netlocNonempty (p.data.drop 7)
  else if strStartsWith p "https://" then netlocNonempty (p.data.drop 8)
  else false

/-- The body of `_load_proxies` for `proxy_source_type == 'url'` with the
`requests` dependency present.  `url` is `self.proxy_url_setting`; `fetch` is
the outcome of the HTTP request (only consulted when `url` is truthy).
A raised `requests.RequestException` is caught by the
`except requests.RequestException` arm, which only logs — every state field
keeps its previous value. -/
def loadProxiesUrl (s : MWState) (url : String) (fetch : FetchResult) (now : Nat) : MWState :=
  if url = "" then
    -- no fetch attempted: new_proxies = [], last_refresh updated, and the
    -- empty validated list clears the pool
    { s with proxies := [], last_refresh_time := now }
  else
    match fetch with
    | .requestError _ => s
    | .success body =>
        -- `[line.strip() for line in ... if line.strip() and not line.startswith('#')]`
        -- (the startswith test runs on the unstripped line, as in the source)
        let newProxies := ((splitLines body).filter
            (fun l => pyStripWs l ≠ "" && !(strStartsWith l "#"))).map pyStripWs
        let validated := newProxies.filter validProxyUrl
        if validated = [] then
          { s with proxies := [], last_refresh_time := now }
        else
          { s with proxies := validated, proxy_index := 0, last_refresh_time := now }

/-! ## Supporting lemmas for the middleware theorems -/

/-- An in-range `getD` is a member of the list. -/
theorem getD_mem (l : List String) (i : Nat) (h : i < l.length) : l.getD i "" ∈ l := by
  rw [List.getD_eq_getElem?_getD, List.getElem?_eq_getElem h]
  exact List.getElem_mem h

/-- Whatever the sequential walk returns is a pool entry that is not in the
failure map it walked against. -/
theorem seqWalkGo_some (proxies : List String) (fp : List (String × Nat))
    (hne : proxies ≠ []) :
    ∀ k idx c, seqWalkGo proxies fp idx k = some c →
      c ∈ proxies ∧ isFailed fp c = false := by
  intro k
  induction k with
  | zero => intro idx c h; simp [seqWalkGo] at h
  | succ k ih =>
      intro idx c h
      rw [seqWalkGo] at h
      split at h
      · exact ih (idx + 1) c h
      · rename_i hf
        obtain rfl : proxies.getD (idx % proxies.length) "" = c := by
          simpa using h
        refine ⟨getD_mem _ _ (Nat.mod_lt _ ?_), by simpa using hf⟩
        exact List.length_pos.mpr hne

/-- The selection step returns an element of the pool that is absent from the
failure map `fp` it is given, and installs exactly `fp` as the new failure
map, whenever its `available_proxies` argument is a nonempty list of such
elements. -/
theorem selectFrom_spec (s : MWState) (fp : List (String × Nat)) (avail : List String)
    (pick : Nat) (hpne : s.proxies ≠ []) (hane : avail ≠ [])
    (hsub : ∀ c ∈ avail, c ∈ s.proxies ∧ isFailed fp c = false) :
    ∃ q, (selectFrom s fp avail pick).1 = some q ∧ q ∈ s.proxies
      ∧ isFailed fp q = false
      ∧ (selectFrom s fp avail pick).2.failed_proxies = fp := by
  have hdef : ∀ h : pick % avail.length < avail.length,
      avail.getD (pick % avail.length) "" ∈ s.proxies
        ∧ isFailed fp (avail.getD (pick % avail.length) "") = false :=
    fun h => hsub _ (getD_mem avail _ h)
  have hlt : pick % avail.length < avail.length :=
    Nat.mod_lt _ (List.length_pos.mpr hane)
  unfold selectFrom
  by_cases hmode : s.mode = "sequential"
  · rw [if_pos hmode]
    cases hsw : seqWalkGo s.proxies fp (s.proxy_index % s.proxies.length)
        s.proxies.length with
    | some c =>
        obtain ⟨hc1, hc2⟩ := seqWalkGo_some s.proxies fp hpne _ _ c hsw
        exact ⟨c, by simp [hsw], hc1, hc2, by simp [hsw]⟩
    | none =>
        obtain ⟨h1, h2⟩ := hdef hlt
        exact ⟨avail.getD (pick % avail.length) "", by simp [hsw, hane], h1, h2,
          by simp [hsw, hane]⟩
  · rw [if_neg hmode]
    obtain ⟨h1, h2⟩ := hdef hlt
    exact ⟨avail.getD (pick % avail.length) "", by simp [hane], h1, h2, by simp [hane]⟩

/-- C1: on a non-empty pool, if at least one entry is not currently marked
failed (an entry counts as marked failed exactly while it has an unexpired
failure timestamp, per `_clear_expired_failures`), then `_get_proxy` returns
such an entry — it never returns a failed one.  And if every pool entry is
currently marked failed, the call clears the failure map entirely and still
returns a member of the pool, so selection never starves permanently.
`pick` ranges over every possible outcome of `random.choice`. -/
theorem proxy_selection_no_starvation (s : MWState) (now pick : Nat)
    (hne : s.proxies ≠ []) :
    ((∃ p ∈ s.proxies,
        isFailed (clearExpiredFailures s.fail_timeout now s.failed_proxies) p = false) →
      ∃ q, (getProxy s now pick).1 = some q ∧ q ∈ s.proxies ∧
        isFailed (getProxy s now pick).2.failed_proxies q = false)
    ∧ ((∀ p ∈ s.proxies,
        isFailed (clearExpiredFailures s.fail_timeout now s.failed_proxies) p = true) →
      (getProxy s now pick).2.failed_proxies = [] ∧
        ∃ q, (getProxy s now pick).1 = some q ∧ q ∈ s.proxies) := by
  constructor
  · rintro ⟨p, hp, hnf⟩
    have hmemf : p ∈ s.proxies.filter
        (fun q => !(isFailed (clearExpiredFailures s.fail_timeout now s.failed_proxies) q)) :=
      List.mem_filter.mpr ⟨hp, by simp [hnf]⟩
    have havne := List.ne_nil_of_mem hmemf
    have hred : getProxy s now pick
        = selectFrom s (clearExpiredFailures s.fail_timeout now s.failed_proxies)
            (s.proxies.filter
              (fun q => !(isFailed (clearExpiredFailures s.fail_timeout now s.failed_proxies) q)))
            pick := by
      simp only [getProxy]
      rw [if_neg hne, if_neg havne]
    rw [hred]
    obtain ⟨q, h1, h2, h3, h4⟩ := selectFrom_spec s _ _ pick hne havne
      (fun c hc => ⟨(List.mem_filter.mp hc).1, by simpa using (List.mem_filter.mp hc).2⟩)
    exact ⟨q, h1, h2, by rw [h4]; exact h3⟩
  · intro hall
    have hav : s.proxies.filter
        (fun q => !(isFailed (clearExpiredFailures s.fail_timeout now s.failed_proxies) q))
        = [] :=
      List.filter_eq_nil_iff.mpr (fun a ha => by simp [hall a ha])
    have hred : getProxy s now pick = selectFrom s [] s.proxies pick := by
      simp only [getProxy]
      rw [if_neg hne, hav, if_pos rfl, if_neg hne]
    rw [hred]
    obtain ⟨q, h1, h2, _, h4⟩ := selectFrom_spec s [] s.proxies pick hne hne
      (fun c hc => ⟨hc, rfl⟩)
    exact ⟨h4, q, h1, h2⟩

/-- Witness for `proxy_selection_no_starvation`: a two-entry pool with one
unexpired failure; the selected proxy is the non-failed entry. -/
theorem proxy_selection_no_starvation_witness :
    (["http://p1.example:8080", "http://p2.example:8080"] : List String) ≠ [] ∧
    (∃ q, (getProxy
        { enabled := true, mode := "random",
          fail_codes := [403, 407, 429, 500, 502, 503, 504], fail_timeout := 300,
          proxies := ["http://p1.example:8080", "http://p2.example:8080"],
          failed_proxies := [("http://p1.example:8080", 10)],
          proxy_index := 0, last_refresh_time := 0 } 100 0).1 = some q
      ∧ q ∈ (["http://p1.example:8080", "http://p2.example:8080"] : List String)
      ∧ isFailed (getProxy
        { enabled := true, mode := "random",
          fail_codes := [403, 407, 429, 500, 502, 503, 504], fail_timeout := 300,
          proxies := ["http://p1.example:8080", "http://p2.example:8080"],
          failed_proxies := [("http://p1.example:8080", 10)],
          proxy_index := 0, last_refresh_time := 0 } 100 0).2.failed_proxies q = false) :=
  ⟨by decide,
   (proxy_selection_no_starvation
      { enabled := true, mode := "random",
        fail_codes := [403, 407, 429, 500, 502, 503, 504], fail_timeout := 300,
        proxies := ["http://p1.example:8080", "http://p2.example:8080"],
        failed_proxies := [("http://p1.example:8080", 10)],
        proxy_index := 0, last_refresh_time := 0 } 100 0 (by decide)).1
     (by decide)⟩

/-! ## Sequential-mode fairness (repeated `_get_proxy` calls) -/

/-- Repeated calls of `_get_proxy`: each element of `params` supplies the
`time.time()` value and the `random.choice` pick of one call; the call
results are collected in order. -/
def runCalls : MWState → List (Nat × Nat) → List (Option String) × MWState
  | s, [] => ([], s)
  | s, q :: rest =>
      (((getProxy s q.1 q.2).1 :: (runCalls (getProxy s q.1 q.2).2 rest).1),
       (runCalls (getProxy s q.1 q.2).2 rest).2)

/-- Clearing expired failures never adds a failure mark. -/
theorem isFailed_clearExpired_false (t n : Nat) (fp : List (String × Nat)) (p : String)
    (h : isFailed fp p = false) :
    isFailed (clearExpiredFailures t n fp) p = false := by
  unfold clearExpiredFailures
  split
  · exact h
  · rw [isFailed, List.any_eq_false] at h ⊢
    exact fun e he => h e (List.mem_filter.mp he).1

/-- One sequential-mode `_get_proxy` call on a duplicate-free pool with no
failed entry returns the pool entry at the current rotation index and
advances the index by one (mod pool size). -/
theorem getProxy_seq_step (s : MWState) (now pick : Nat)
    (hmode : s.mode = "sequential") (hnd : s.proxies.Nodup) (hne : s.proxies ≠ [])
    (hav : ∀ p ∈ s.proxies, isFailed s.failed_proxies p = false) :
    getProxy s now pick =
      (some (s.proxies.getD (s.proxy_index % s.proxies.length) ""),
       { s with
          failed_proxies := clearExpiredFailures s.fail_timeout now s.failed_proxies,
          proxy_index := (s.proxy_index % s.proxies.length + 1) % s.proxies.length }) := by
  have hlen : 0 < s.proxies.length := List.length_pos.mpr hne
  have hav1 : ∀ p ∈ s.proxies,
      isFailed (clearExpiredFailures s.fail_timeout now s.failed_proxies) p = false :=
    fun p hp => isFailed_clearExpired_false _ _ _ _ (hav p hp)
  have hfilter : s.proxies.filter
      (fun q => !(isFailed (clearExpiredFailures s.fail_timeout now s.failed_proxies) q))
      = s.proxies :=
    List.filter_eq_self.mpr (fun a ha => by simp [hav1 a ha])
  have hred : getProxy s now pick
      = selectFrom s (clearExpiredFailures s.fail_timeout now s.failed_proxies)
          s.proxies pick := by
    simp only [getProxy]
    rw [if_neg hne, hfilter, if_neg hne]
  have hstartlt : s.proxy_index % s.proxies.length < s.proxies.length :=
    Nat.mod_lt _ hlen
  have hgetD : s.proxies.getD (s.proxy_index % s.proxies.length) ""
      = s.proxies[s.proxy_index % s.proxies.length] := by
    rw [List.getD_eq_getElem?_getD, List.getElem?_eq_getElem hstartlt]
    rfl
  have hwalk : seqWalkGo s.proxies
      (clearExpiredFailures s.fail_timeout now s.failed_proxies)
      (s.proxy_index % s.proxies.length) s.proxies.length
      = some (s.proxies.getD (s.proxy_index % s.proxies.length) "") := by
    obtain ⟨k, hk⟩ : ∃ k, s.proxies.length = k + 1 :=
      ⟨s.proxies.length - 1, by omega⟩
    rw [hk, seqWalkGo, ← hk, Nat.mod_mod_of_dvd _ dvd_rfl]
    rw [if_neg ?_]
    intro hcontra
    have hmem : s.proxies.getD (s.proxy_index % s.proxies.length) "" ∈ s.proxies :=
      getD_mem _ _ hstartlt
    rw [hav1 _ hmem] at hcontra
    exact Bool.false_ne_true hcontra
  have hidx : s.proxies.indexOf (s.proxies.getD (s.proxy_index % s.proxies.length) "")
      = s.proxy_index % s.proxies.length := by
    rw [hgetD]
    exact List.indexOf_getElem hnd _ hstartlt
  rw [hred]
  unfold selectFrom
  rw [if_pos hmode]
  dsimp only
  rw [hwalk]
  dsimp only
  rw [hidx]

/-- The per-call results of `runCalls` in sequential mode: call `i` returns
the pool entry at index `(start + i) mod n`. -/
theorem runCalls_seq (params : List (Nat × Nat)) : ∀ s : MWState,
    s.mode = "sequential" → s.proxies.Nodup → s.proxies ≠ [] →
    (∀ p ∈ s.proxies, isFailed s.failed_proxies p = false) →
    (runCalls s params).1 =
      (List.range params.length).map
        (fun i => some (s.proxies.getD ((s.proxy_index + i) % s.proxies.length) "")) := by
  induction params with
  | nil => intro s _ _ _ _; rfl
  | cons q rest ih =>
      intro s hmode hnd hne hav
      have hstep := getProxy_seq_step s q.1 q.2 hmode hnd hne hav
      have hres : (runCalls s (q :: rest)).1
          = (getProxy s q.1 q.2).1 :: (runCalls (getProxy s q.1 q.2).2 rest).1 := rfl
      rw [hres, hstep]
      dsimp only
      rw [ih
        { s with
          failed_proxies := clearExpiredFailures s.fail_timeout q.1 s.failed_proxies,
          proxy_index := (s.proxy_index % s.proxies.length + 1) % s.proxies.length }
        hmode hnd hne
        (fun p hp => isFailed_clearExpired_false _ _ _ _ (hav p hp))]
      dsimp only
      simp only [List.length_cons]
      rw [List.range_succ_eq_map, List.map_cons, List.map_map]
      congr 1
      · apply List.map_congr_left
        intro i _
        have hmod : ((s.proxy_index % s.proxies.length + 1) % s.proxies.length + i)
              % s.proxies.length
            = (s.proxy_index + Nat.succ i) % s.proxies.length := by
          conv_lhs => rw [Nat.mod_add_mod, Nat.add_assoc, Nat.mod_add_mod]
          rw [Nat.add_comm 1 i]
        simp [Function.comp, hmod]
        have hadd : s.proxy_index + 1 + i = s.proxy_index + (i + 1) := by omega
        rw [hadd]


/-- A left rotation, described entry-by-entry. -/
theorem rotate_eq_range_getD (l : List String) (idx : Nat) (hne : l ≠ []) :
    l.rotate idx =
      (List.range l.length).map (fun i => l.getD ((idx + i) % l.length) "") := by
  have hlen : 0 < l.length := List.length_pos.mpr hne
  apply List.ext_get
  · simp
  · intro n h1 h2
    have hn : n < l.length := by simpa using h1
    have hmod : (idx + n) % l.length < l.length := Nat.mod_lt _ hlen
    rw [List.get_rotate]
    simp only [List.get_eq_getElem, List.getElem_map, List.getElem_range]
    rw [List.getD_eq_getElem?_getD, List.getElem?_eq_getElem hmod]
    simp [Nat.add_comm idx n]

/-- Counting an element after injecting a list into `Option`. -/
theorem count_map_some (p : String) (L : List String) :
    (L.map some).count (some p) = L.count p := by
  induction L with
  | nil => rfl
  | cons a L ih => simp [List.count_cons, ih]

/-- C2 (amended): in sequential mode, on a pool of `N` pairwise-distinct
proxies that all stay available, `N` consecutive `_get_proxy` calls return
exactly the rotation of the pool that starts at the current rotation index —
in particular each pool entry is returned exactly once.  (The
pairwise-distinct hypothesis is required: `_get_proxy` advances the index via
`self.proxies.index(selected_proxy)`, which returns the *first* position of
the selected value, so pools with duplicate entries can stall, see
`sequential_rotation_cex`.) -/
theorem sequential_rotation_fair (s : MWState) (params : List (Nat × Nat))
    (hmode : s.mode = "sequential") (hnd : s.proxies.Nodup) (hne : s.proxies ≠ [])
    (hav : ∀ p ∈ s.proxies, isFailed s.failed_proxies p = false)
    (hlen : params.length = s.proxies.length) :
    (runCalls s params).1 = (s.proxies.rotate s.proxy_index).map some
    ∧ ∀ p ∈ s.proxies, (runCalls s params).1.count (some p) = 1 := by
  have h1 := runCalls_seq params s hmode hnd hne hav
  have h2 : (runCalls s params).1 = (s.proxies.rotate s.proxy_index).map some := by
    rw [h1, hlen, rotate_eq_range_getD s.proxies s.proxy_index hne, List.map_map]
    rfl
  refine ⟨h2, fun p hp => ?_⟩
  rw [h2, count_map_some, (List.rotate_perm s.proxies s.proxy_index).count_eq]
  exact List.count_eq_one_of_mem hnd hp

/-- A sequential-mode state with three distinct proxies, none failed,
rotation index 1. -/
def mwSeq : MWState :=
  { enabled := true, mode := "sequential",
    fail_codes := [403, 407, 429, 500, 502, 503, 504], fail_timeout := 300,
    proxies := ["http://p1.example:1", "http://p2.example:1", "http://p3.example:1"],
    failed_proxies := [], proxy_index := 1, last_refresh_time := 0 }

/-- Witness for `sequential_rotation_fair` on `mwSeq`: three calls walk the
pool from index 1, covering each entry once. -/
theorem sequential_rotation_fair_witness :
    (mwSeq.mode = "sequential" ∧ mwSeq.proxies.Nodup ∧ mwSeq.proxies ≠ []
      ∧ (∀ p ∈ mwSeq.proxies, isFailed mwSeq.failed_proxies p = false)
      ∧ ([((5 : Nat), (0 : Nat)), (6, 0), (7, 0)] : List (Nat × Nat)).length
          = mwSeq.proxies.length)
    ∧ ((runCalls mwSeq [(5, 0), (6, 0), (7, 0)]).1
        = (mwSeq.proxies.rotate mwSeq.proxy_index).map some
      ∧ ∀ p ∈ mwSeq.proxies,
          (runCalls mwSeq [(5, 0), (6, 0), (7, 0)]).1.count (some p) = 1) :=
  ⟨⟨by decide, by decide, by decide, by decide, by decide⟩,
   sequential_rotation_fair mwSeq [(5, 0), (6, 0), (7, 0)]
     (by decide) (by decide) (by decide) (by decide) (by decide)⟩

/-- A sequential-mode state whose pool contains a duplicated proxy value;
rotation index 1. -/
def mwSeqDup : MWState :=
  { enabled := true, mode := "sequential",
    fail_codes := [403, 407, 429, 500, 502, 503, 504], fail_timeout := 300,
    proxies := ["http://b.example:1", "http://a.example:1", "http://a.example:1"],
    failed_proxies := [], proxy_index := 1, last_refresh_time := 0 }

/-- Counterexample to C2 as stated: on the pool `[b, a, a]` (size 3, all
entries available, sequential mode, rotation index 1) three consecutive
`_get_proxy` calls return `a` every time — `self.proxies.index(selected)`
resets the rotation index to the first occurrence of the duplicated value —
so the pool entry `b` is returned zero times, not exactly once, and the
results are not the rotation of the pool starting at the current index. -/
theorem sequential_rotation_cex :
    mwSeqDup.mode = "sequential"
    ∧ mwSeqDup.failed_proxies = []
    ∧ mwSeqDup.proxies.length = 3
    ∧ (runCalls mwSeqDup [(5, 0), (6, 0), (7, 0)]).1
        = [some "http://a.example:1", some "http://a.example:1",
           some "http://a.example:1"]
    ∧ "http://b.example:1" ∈ mwSeqDup.proxies
    ∧ (runCalls mwSeqDup [(5, 0), (6, 0), (7, 0)]).1.count
        (some "http://b.example:1") = 0
    ∧ (runCalls mwSeqDup [(5, 0), (6, 0), (7, 0)]).1
        ≠ (mwSeqDup.proxies.rotate mwSeqDup.proxy_index).map some := by
  decide

/-- A small enabled middleware state with two pool entries, one of them
marked failed at time 10. -/
def mwExa : MWState :=
  { enabled := true, mode := "random",
    fail_codes := [403, 407, 429, 500, 502, 503, 504], fail_timeout := 300,
    proxies := ["http://p1.example:8080", "http://p2.example:8080"],
    failed_proxies := [("http://p1.example:8080", 10)],
    proxy_index := 0, last_refresh_time := 0 }

/-! ## Failure-cooldown expiry (C3) -/

/-- C3 (amended): if the failure map (whose keys are unique, as for a Python
dict) marks `p` with timestamp `T`, the configured cooldown is nonzero, and
the call happens at a time past `T + cooldown`, then
`_clear_expired_failures` removes the expired entry before the available
subset is computed, so `p` is no longer excluded from selection.  (The
nonzero-cooldown hypothesis is required: `_clear_expired_failures` returns
immediately when `fail_timeout` is falsy, see `cooldown_expiry_cex`.) -/
theorem cooldown_expiry_reenables (s : MWState) (p : String) (T now : Nat)
    (hkeys : (s.failed_proxies.map Prod.fst).Nodup)
    (hmem : (p, T) ∈ s.failed_proxies)
    (ht : 0 < s.fail_timeout)
    (helapsed : T + s.fail_timeout < now) :
    isFailed (clearExpiredFailures s.fail_timeout now s.failed_proxies) p = false
    ∧ (p ∈ s.proxies →
        p ∈ s.proxies.filter
          (fun q =>
            !(isFailed (clearExpiredFailures s.fail_timeout now s.failed_proxies) q))) := by
  have hclear :
      isFailed (clearExpiredFailures s.fail_timeout now s.failed_proxies) p = false := by
    unfold clearExpiredFailures
    rw [if_neg (by omega)]
    rw [isFailed, List.any_eq_false]
    intro e he
    obtain ⟨hef, hekeep⟩ := List.mem_filter.mp he
    intro heq
    have hkey : e.1 = p := by simpa using heq
    have heqp : e = (p, T) :=
      List.inj_on_of_nodup_map hkeys hef hmem (by simpa using hkey)
    rw [heqp] at hekeep
    simp only [decide_eq_true_eq] at hekeep
    omega
  exact ⟨hclear, fun hp => List.mem_filter.mpr ⟨hp, by simp [hclear]⟩⟩

/-- Witness for `cooldown_expiry_reenables`: the failure of `p1` marked at
time 10 with a 300-second cooldown no longer excludes it at time 311. -/
theorem cooldown_expiry_reenables_witness :
    ((mwExa.failed_proxies.map Prod.fst).Nodup
      ∧ ("http://p1.example:8080", 10) ∈ mwExa.failed_proxies
      ∧ 0 < mwExa.fail_timeout
      ∧ 10 + mwExa.fail_timeout < 311)
    ∧ isFailed (clearExpiredFailures mwExa.fail_timeout 311 mwExa.failed_proxies)
        "http://p1.example:8080" = false
    ∧ "http://p1.example:8080" ∈ mwExa.proxies.filter
        (fun q =>
          !(isFailed (clearExpiredFailures mwExa.fail_timeout 311 mwExa.failed_proxies) q)) :=
  ⟨⟨by decide, by decide, by decide, by decide⟩,
   (cooldown_expiry_reenables mwExa "http://p1.example:8080" 10 311
     (by decide) (by decide) (by decide) (by decide)).1,
   (cooldown_expiry_reenables mwExa "http://p1.example:8080" 10 311
     (by decide) (by decide) (by decide) (by decide)).2 (by decide)⟩

/-- A middleware state whose cooldown is configured to 0 (the GUI's
"0=disable" choice), with one failure marked at time 5. -/
def mwZeroCooldown : MWState :=
  { enabled := true, mode := "random",
    fail_codes := [403, 407, 429, 500, 502, 503, 504], fail_timeout := 0,
    proxies := ["http://a.example:1", "http://b.example:1"],
    failed_proxies := [("http://a.example:1", 5)],
    proxy_index := 0, last_refresh_time := 0 }

/-- Counterexample to C3 as stated: with the configured cooldown 0, the
proxy marked failed at time 5 is still excluded at time 100, long after
`T + cooldown` has elapsed — `_clear_expired_failures` returns without
clearing anything when `fail_timeout` is falsy, so the entry survives and
`_get_proxy` keeps avoiding it. -/
theorem cooldown_expiry_cex :
    mwZeroCooldown.failed_proxies = [("http://a.example:1", 5)]
    ∧ 5 + mwZeroCooldown.fail_timeout < 100
    ∧ isFailed
        (clearExpiredFailures mwZeroCooldown.fail_timeout 100 mwZeroCooldown.failed_proxies)
        "http://a.example:1" = true
    ∧ "http://a.example:1" ∉ mwZeroCooldown.proxies.filter
        (fun q =>
          !(isFailed
            (clearExpiredFailures mwZeroCooldown.fail_timeout 100 mwZeroCooldown.failed_proxies)
            q))
    ∧ (getProxy mwZeroCooldown 100 0).1 = some "http://b.example:1"
    ∧ isFailed (getProxy mwZeroCooldown 100 0).2.failed_proxies "http://a.example:1"
        = true := by
  decide

/-! ## C9 / C10 theorems -/

/-- C9: when the proxy source type is `'url'` and the HTTP fetch of the
remote list raises a request error, `_load_proxies` only logs it: the entire
middleware state — in particular the proxy pool — is exactly what it was
before the call. -/
theorem url_fetch_error_keeps_pool (s : MWState) (url msg : String) (now : Nat)
    (hurl : url ≠ "") :
    loadProxiesUrl s url (.requestError msg) now = s := by
  simp [loadProxiesUrl, hurl]

/-- Witness for `url_fetch_error_keeps_pool` at a concrete state and URL. -/
theorem url_fetch_error_keeps_pool_witness :
    ("http://proxies.example/list.txt" : String) ≠ "" ∧
    loadProxiesUrl mwExa "http://proxies.example/list.txt" (.requestError "timed out") 50
      = mwExa :=
  ⟨by decide,
   url_fetch_error_keeps_pool mwExa "http://proxies.example/list.txt" "timed out" 50
     (by decide)⟩

/-- C10: `process_response` always returns the very response object it was
given, never a substitute or a new request (the return value is the `α`
argument itself, for every response type `α`); every state field except the
failed-proxy map is unchanged; when the middleware is disabled the state is
fully unchanged; and when it is enabled and the request carries an assigned
proxy, that proxy is inserted into the failed map exactly when the response
status is in the configured failure-code set. -/
theorem process_response_frame {α : Type} (status : α → Nat) (s : MWState)
    (metaProxy : Option String) (response : α) (now : Nat) :
    (processResponse s status metaProxy response now).1 = response
    ∧ (processResponse s status metaProxy response now).2.enabled = s.enabled
    ∧ (processResponse s status metaProxy response now).2.mode = s.mode
    ∧ (processResponse s status metaProxy response now).2.fail_codes = s.fail_codes
    ∧ (processResponse s status metaProxy response now).2.fail_timeout = s.fail_timeout
    ∧ (processResponse s status metaProxy response now).2.proxies = s.proxies
    ∧ (processResponse s status metaProxy response now).2.proxy_index = s.proxy_index
    ∧ (processResponse s status metaProxy response now).2.last_refresh_time
        = s.last_refresh_time
    ∧ (s.enabled = false → (processResponse s status metaProxy response now).2 = s)
    ∧ (∀ p : String, s.enabled = true → metaProxy = some p → p ≠ "" →
        (processResponse s status metaProxy response now).2.failed_proxies
          = if s.fail_codes.contains (status response)
            then dictSet s.failed_proxies p now
            else s.failed_proxies) := by
  cases hsen : s.enabled
  · simp [processResponse, hsen]
  · by_cases hm : status response ∈ s.fail_codes
    · simp only [processResponse, hsen, markFailed]
      simp [hm, hsen]
      intro p hp hpn
      simp [hp, hpn]
    · simp only [processResponse, hsen, markFailed]
      simp [hm, hsen]

/-- Witness for `process_response_frame`: a 503 response through the enabled
example middleware returns the same response and marks its proxy failed. -/
theorem process_response_frame_witness :
    (processResponse mwExa (fun st : Nat => st) (some "http://p2.example:8080") 503 77).1
      = 503
    ∧ (processResponse mwExa (fun st : Nat => st) (some "http://p2.example:8080") 503 77).2.proxies
      = mwExa.proxies
    ∧ (processResponse mwExa (fun st : Nat => st) (some "http://p2.example:8080") 503 77).2.failed_proxies
      = dictSet mwExa.failed_proxies "http://p2.example:8080" 77 := by
  have h := process_response_frame (fun st : Nat => st) mwExa
    (some "http://p2.example:8080") (503 : Nat) 77
  refine ⟨h.1, h.2.2.2.2.2.1, ?_⟩
  have h10 := h.2.2.2.2.2.2.2.2.2 "http://p2.example:8080" (by decide) rfl (by decide)
  rw [h10]
  decide

/-! ## File API path containment (`file_api_plugin.list_or_get_file`)

Filesystem paths are modelled as lists of components below the root, with no
symlinks, so `Path.resolve()` is the lexical normalization of `..`
components.  `str(path)` joins the components with `/`. -/

/-- The handler's component extraction:
`safe_sub_path_str = sub_path.lstrip('/\\')` followed by
`[part for part in Path(safe_sub_path_str).parts if part and part != '.']`
— for POSIX paths: split on `/`, drop empty components (which also strips
leading slashes) and `.` components.  Note that `..` components are kept. -/
def subPathParts (sub : String) : List String :=
  (strSplitOn sub "/").filter (fun c => c ≠ "" && c ≠ ".")

/-- `base_project_path.joinpath(*path_parts).resolve()`, lexically: `..`
pops the last component (staying put at the root), anything else is
appended. -/
def resolveComps (base parts : List String) : List String :=
  parts.foldl (fun acc c => if c = ".." then acc.dropLast else acc ++ [c]) base

/-- `str(path)` of an absolute path given by its components. -/
def pathToString (comps : List String) : String :=
  comps.foldl (fun acc c => acc ++ "/" ++ c) ""

/-- The handler's security check:
`str(full_path).startswith(str(base_project_path.resolve()))`, where `base`
is the already-resolved project module directory.  A request is served iff
this returns `true` (otherwise the handler aborts with HTTP 403). -/
def containmentCheckPassed (base : List String) (sub : String) : Bool :=
  strStartsWith (pathToString (resolveComps base (subPathParts sub)))
    (pathToString base)

/-- Component-wise prefix test. -/
def compsPrefixOf : List String → List String → Bool
  | [], _ => true
  | _, [] => false
  | a :: as, b :: bs => a == b && compsPrefixOf as bs

/-- The property the claim asserts: the resolved request path lies inside
the project base directory. -/
def isWithinBase (base full : List String) : Bool := compsPrefixOf base full

/-- C4 fails on the code (code bug): for the project base directory
`/home/user/proj/proj` and the request sub-path `../proj2/secret.txt`, the
resolved path is `/home/user/proj/proj2/secret.txt` — outside the base
directory — yet the `startswith` string test passes, because the check lacks
a trailing-separator guard and the part filter does not drop `..`
components.  The handler therefore serves content from outside the project
base instead of rejecting the request with HTTP 403. -/
theorem path_traversal_check_bypass :
    resolveComps ["home", "user", "proj", "proj"]
        (subPathParts "../proj2/secret.txt")
      = ["home", "user", "proj", "proj2", "secret.txt"]
    ∧ isWithinBase ["home", "user", "proj", "proj"]
        (resolveComps ["home", "user", "proj", "proj"]
          (subPathParts "../proj2/secret.txt")) = false
    ∧ containmentCheckPassed ["home", "user", "proj", "proj"]
        "../proj2/secret.txt" = true := by
  decide

/-! ## Log analyzer (`log_analyzer_plugin.Plugin._analyze_log_file`)

The analyzer is a linear pass over the log's lines.  Numbers are modelled as
`ℚ` (Python ints and floats; all the arithmetic the claims exercise is exact
in both).  A `none` result models an exception propagating out of the
analysis. -/

/-- A parsed stat value: `json.loads` result or the string fallback. -/
inductive JVal where
  | num (q : ℚ)
  | str (s : String)
deriving Repr, DecidableEq, Inhabited

/-- Value of a digit run. -/
def digitsToNat (ds : List Char) : Nat :=
  ds.foldl (fun acc c => acc * 10 + (c.toNat - 48)) 0

/-- Model of `json.loads` restricted to the integer and decimal literals
that occur as numeric stat values; everything else fails, which the caller
turns into the quoted-string fallback, as in the source. -/
def jsonLoads? (v : String) : Option JVal :=
  let parseAbs : List Char → Option ℚ := fun cs1 =>
    let intDigits := cs1.takeWhile Char.isDigit
    let rest1 := cs1.dropWhile Char.isDigit
    if intDigits.isEmpty then none
    else
      match rest1 with
      | [] => some (mkRat (digitsToNat intDigits) 1)
      | '.' :: rest2 =>
          let fracDigits := rest2.takeWhile Char.isDigit
          let rest3 := rest2.dropWhile Char.isDigit
          if fracDigits.isEmpty || !rest3.isEmpty then none
          else some (mkRat
            (digitsToNat intDigits * 10 ^ fracDigits.length + digitsToNat fracDigits)
            (10 ^ fracDigits.length))
      | _ => none
  match v.data with
  | '-' :: cs1 => (parseAbs cs1).map (fun q => JVal.num (-q))
  | cs1 => (parseAbs cs1).map JVal.num

/-- Consume exactly `n` digits (`\d{n}`). -/
def dropExactDigits : Nat → List Char → Option (List Char)
  | 0, cs => some cs
  | _ + 1, [] => none
  | n + 1, c :: cs => if c.isDigit then dropExactDigits n cs else none

/-- Consume one expected character. -/
def expectChar (c : Char) : List Char → Option (List Char)
  | [] => none
  | d :: cs => if d == c then some cs else none

/-- The fixed prefix `\d{4}-\d{2}-\d{2} \d{2}:\d{2}:\d{2} \[` of
`REGEX_ERROR` / `REGEX_WARNING`, anchored at the start (`re.match`). -/
def matchTsBracket (cs : List Char) : Option (List Char) := do
  let cs ← dropExactDigits 4 cs
  let cs ← expectChar '-' cs
  let cs ← dropExactDigits 2 cs
  let cs ← expectChar '-' cs
  let cs ← dropExactDigits 2 cs
  let cs ← expectChar ' ' cs
  let cs ← dropExactDigits 2 cs
  let cs ← expectChar ':' cs
  let cs ← dropExactDigits 2 cs
  let cs ← expectChar ':' cs
  let cs ← dropExactDigits 2 cs
  let cs ← expectChar ' ' cs
  expectChar '[' cs

/-- The `\S+` of `\[\S+\]` followed by the closing sequence `"] TAG: "`:
consume at least one non-whitespace character, preferring the latest
possible close (the regex quantifier is greedy), and return the capture
`(.*)` — the rest of the line. -/
def seekClose (closeSeq : List Char) : List Char → Option (List Char)
  | [] => none
  | c :: rest =>
      if c.isWhitespace then none
      else
        match seekClose closeSeq rest with
        | some g => some g
        | none =>
            if charsPrefix closeSeq rest then some (rest.drop closeSeq.length)
            else none

/-- `REGEX_ERROR.match line` / `REGEX_WARNING.match line` (for
`tag = "ERROR"` / `"WARNING"`): the captured group, if the line matches. -/
def matchLevel (tag line : String) : Option String :=
  match matchTsBracket line.data with
  | none => none
  | some rest =>
      match seekClose ("] " ++ tag ++ ": ").data rest with
      | none => none
      | some g => some ⟨g⟩

/-- `REGEX_RESPONSE_STATUS.match(key)` — the pattern
`'downloader/response_status_count/(\d+)': (\d+)` anchored at the start of
`key`; returns group 1 (the status code). -/
def statusMatch? (key : String) : Option String :=
  if charsPrefix "'downloader/response_status_count/".data key.data then
    let rest := key.data.drop "'downloader/response_status_count/".data.length
    let code := rest.takeWhile Char.isDigit
    let rest2 := rest.dropWhile Char.isDigit
    if !code.isEmpty && charsPrefix "': ".data rest2 then
      if !((rest2.drop 3).takeWhile Char.isDigit).isEmpty then some ⟨code⟩ else none
    else none
  else none

/-- `int(value)` for a parsed stat value: floats truncate toward zero,
numeric strings parse, anything else raises (`none`). -/
def jvalToInt : JVal → Option Int
  | .num q => some (if 0 ≤ q then q.floor else q.ceil)
  | .str s =>
      let cs := charsStripWs s.data
      match cs with
      | '-' :: ds =>
          if !ds.isEmpty && ds.all Char.isDigit then some (-(digitsToNat ds : Int))
          else none
      | ds =>
          if !ds.isEmpty && ds.all Char.isDigit then some ((digitsToNat ds : Int))
          else none

/-- `defaultdict(int)`-style `d[k] += 1` on an insertion-ordered map. -/
def bumpCount (d : List (String × Nat)) (k : String) : List (String × Nat) :=
  if d.any (·.1 == k) then d.map (fun e => if e.1 == k then (e.1, e.2 + 1) else e)
  else d ++ [(k, 1)]

/-- `d[k] = v` on an insertion-ordered map. -/
def setStat (d : List (String × JVal)) (k : String) (v : JVal) : List (String × JVal) :=
  if d.any (·.1 == k) then d.map (fun e => if e.1 == k then (e.1, v) else e)
  else d ++ [(k, v)]

/-- `d.get(k, dflt)`. -/
def getStatD (d : List (String × JVal)) (k : String) (dflt : JVal) : JVal :=
  match d.find? (·.1 == k) with
  | some e => e.2
  | none => dflt

/-- `defaultdict(int)`-style `d[k] += n`. -/
def bumpStatus (d : List (String × Int)) (k : String) (n : Int) : List (String × Int) :=
  if d.any (·.1 == k) then d.map (fun e => if e.1 == k then (e.1, e.2 + n) else e)
  else d ++ [(k, n)]

/-- The accumulating state of the line loop: the `errors` / `warnings`
counters, `results['stats']`, and the `in_stats_dump` flag. -/
structure LogParseState where
  errors : List (String × Nat)
  warnings : List (String × Nat)
  raw_stats : List (String × JVal)
  status_codes : List (String × Int)
  in_stats_dump : Bool
deriving Repr, DecidableEq

/-- The state before the first line. -/
def initLogState : LogParseState := ⟨[], [], [], [], false⟩

/-- The `if in_stats_dump:` body: split on `': '`, parse the value with a
string fallback, store it in `raw_stats`, and run the status-code
extraction; `int(value)` raising propagates (`none`). -/
def statDumpStep (st : LogParseState) (line : String) : Option LogParseState :=
  match strSplitOn line ": " with
  | [p0, p1] =>
      let key : String := ⟨charsStripChar '\'' (charsStripWs p0.data)⟩
      let vstr : List Char := charsStripChar ',' (charsStripWs p1.data)
      let value : JVal :=
        match jsonLoads? ⟨vstr⟩ with
        | some v => v
        | none => .str ⟨charsStripChar '\'' vstr⟩
      let st1 := { st with raw_stats := setStat st.raw_stats key value }
      match statusMatch? key with
      | some code =>
          match jvalToInt value with
          | some n => some { st1 with status_codes := bumpStatus st1.status_codes code n }
          | none => none
      | none => some st1
  | _ => some st

/-- The stats-dump start block: same parse, but no status-code extraction,
and its bare `except` swallows everything (total function). -/
def statFirstLineStep (st : LogParseState) (line : String) : LogParseState :=
  match strSplitOn line ": " with
  | [p0, p1] =>
      let key : String := ⟨charsStripChar '\'' (charsStripWs p0.data)⟩
      let vstr : List Char := charsStripChar ',' (charsStripWs p1.data)
      let value : JVal :=
        match jsonLoads? ⟨vstr⟩ with
        | some v => v
        | none => .str ⟨charsStripChar '\'' vstr⟩
      { st with raw_stats := setStat st.raw_stats key value }
  | _ => st

/-- One iteration of the `for line in f` loop. -/
def processLine (st : LogParseState) (line0 : String) : Option LogParseState :=
  let line := pyStripWs line0
  if line = "" then some st
  else
    match matchLevel "ERROR" line with
    | some msg0 =>
        let msg1 := pyStripWs msg0
        let msg :=
          if strContains msg1 "Traceback (most recent call last)" then
            "Traceback occurred (see log for details)"
          else msg1
        some { st with errors := bumpCount st.errors msg }
    | none =>
      match matchLevel "WARNING" line with
      | some msg0 => some { st with warnings := bumpCount st.warnings (pyStripWs msg0) }
      | none =>
          let stA := if line = "\x7d" then { st with in_stats_dump := false } else st
          match (if stA.in_stats_dump then statDumpStep stA line else some stA) with
          | none => none
          | some st1 =>
              if strContains line "'downloader/response_count':" then
                some (statFirstLineStep { st1 with in_stats_dump := true } line)
              else some st1

/-- The whole line loop. -/
def parseLines (lines : List String) : Option LogParseState :=
  lines.foldlM processLine initLogState

/-- `results['summary']` with its numeric fields. -/
structure LogSummary where
  error_count : Nat
  warning_count : Nat
  item_scraped_count : JVal
  finish_reason : JVal
  elapsed_seconds : JVal
  total_requests : JVal
  total_responses : JVal
  avg_req_per_sec : ℚ
  avg_item_per_sec : ℚ
  http_success_rate : ℚ
deriving Repr, DecidableEq

/-- Numeric view of a stat value; a string raises `TypeError` as soon as it
is compared with or divided by a number (`none`). -/
def jnumQ : JVal → Option ℚ
  | .num q => some q
  | .str _ => none

/-- The summary computation after the line pass, in source order: per-second
rates guarded by `elapsed > 0`, HTTP success rate as the sum of the
status-code counts whose code starts with `'2'` divided by
`total_responses`, guarded by `total_responses > 0`. -/
def computeSummary (st : LogParseState) : Option LogSummary :=
  let item := getStatD st.raw_stats "item_scraped_count" (.num 0)
  let finish := getStatD st.raw_stats "finish_reason" (.str "N/A")
  let elapsed := getStatD st.raw_stats "elapsed_time_seconds" (.num 0)
  let reqs := getStatD st.raw_stats "downloader/request_count" (.num 0)
  let resps := getStatD st.raw_stats "downloader/response_count" (.num 0)
  match jnumQ elapsed with
  | none => none
  | some elapsedQ =>
      match (if 0 < elapsedQ then
          match jnumQ reqs, jnumQ item with
          | some r, some i => some (r / elapsedQ, i / elapsedQ)
          | _, _ => none
        else some ((0 : ℚ), (0 : ℚ))) with
      | none => none
      | some rates =>
          match jnumQ resps with
          | none => none
          | some respQ =>
              let success : Int :=
                (st.status_codes.filter (fun e => strStartsWith e.1 "2")).foldl
                  (fun a e => a + e.2) 0
              some { error_count := st.errors.foldl (fun a e => a + e.2) 0,
                     warning_count := st.warnings.foldl (fun a e => a + e.2) 0,
                     item_scraped_count := item, finish_reason := finish,
                     elapsed_seconds := elapsed, total_requests := reqs,
                     total_responses := resps,
                     avg_req_per_sec := rates.1, avg_item_per_sec := rates.2,
                     http_success_rate :=
                       if 0 < respQ then ((success : ℚ) / respQ) * 100 else 0 }

/-- `_analyze_log_file` on the lines of a readable log file: the parsed
stats and the derived summary, or `none` when an exception propagates. -/
def analyzeLog (lines : List String) : Option (LogParseState × LogSummary) := do
  let st ← parseLines lines
  let sm ← computeSummary st
  pure (st, sm)

/-! ## C5: the HTTP success rate is always 0 -/

/-- The head of `dropWhile p` never satisfies `p`. -/
theorem dropWhile_head_false (p : Char → Bool) :
    ∀ (cs : List Char) (d : Char) (ds : List Char),
      List.dropWhile p cs = d :: ds → p d = false := by
  intro cs
  induction cs with
  | nil => intro d ds h; simp at h
  | cons a t ih =>
      intro d ds h
      rw [List.dropWhile_cons] at h
      split at h
      · exact ih d ds h
      · rename_i hpa
        obtain ⟨rfl, -⟩ := List.cons.inj h
        exact Bool.not_eq_true _ ▸ (by simpa using hpa)

/-- Stripping a character from both ends leaves a list that does not start
with that character. -/
theorem charsStripChar_head (c : Char) (ws : List Char) :
    ∀ d ds, charsStripChar c ws = d :: ds → (d == c) = false := by
  intro d ds h
  unfold charsStripChar at h
  have hpre : (((ws.dropWhile (· == c)).reverse.dropWhile (· == c)).reverse : List Char)
      <+: ws.dropWhile (· == c) := by
    have hsuf : (ws.dropWhile (· == c)).reverse.dropWhile (· == c)
        <:+ (ws.dropWhile (· == c)).reverse := List.dropWhile_suffix _
    simpa using hsuf.reverse
  rw [h] at hpre
  obtain ⟨t, ht⟩ := hpre
  have hdw : ws.dropWhile (· == c) = d :: (ds ++ t) := by
    rw [← ht]; rfl
  simpa using dropWhile_head_false (· == c) ws d (ds ++ t) hdw

/-- The status-code regex starts with a literal quote, but it is matched
against the quote-stripped key: the match never succeeds. -/
theorem statusMatch?_stripChar (ws : List Char) :
    statusMatch? ⟨charsStripChar '\'' ws⟩ = none := by
  have hdata : ("'downloader/response_status_count/" : String).data
      = '\'' :: ("downloader/response_status_count/" : String).data := rfl
  have hcond : charsPrefix ("'downloader/response_status_count/" : String).data
      (String.data ⟨charsStripChar '\'' ws⟩) = false := by
    show charsPrefix _ (charsStripChar '\'' ws) = false
    rw [hdata]
    cases hres : charsStripChar '\'' ws with
    | nil => rfl
    | cons d ds =>
        have hd := charsStripChar_head '\'' ws d ds hres
        have hd' : ('\'' == d) = false := by
          simp only [beq_eq_false_iff_ne] at hd ⊢
          exact fun hc => hd hc.symm
        rw [charsPrefix, hd']
        rfl
  unfold statusMatch?
  rw [hcond]
  rfl

/-- The in-dump stat parse can never touch `status_codes`. -/
theorem statDumpStep_status (st : LogParseState) (line : String)
    (st' : LogParseState) (h : statDumpStep st line = some st') :
    st'.status_codes = st.status_codes := by
  unfold statDumpStep at h
  split at h
  · rename_i p0 p1
    dsimp only at h
    rw [statusMatch?_stripChar] at h
    obtain rfl := Option.some.inj h
    rfl
  · obtain rfl := Option.some.inj h
    rfl

/-- The dump-start parse never touches `status_codes`. -/
theorem statFirstLineStep_status (st : LogParseState) (line : String) :
    (statFirstLineStep st line).status_codes = st.status_codes := by
  unfold statFirstLineStep
  split <;> rfl

/-- No single line of input can change `status_codes`. -/
theorem processLine_status (st : LogParseState) (line0 : String)
    (st' : LogParseState) (h : processLine st line0 = some st') :
    st'.status_codes = st.status_codes := by
  unfold processLine at h
  dsimp only at h
  split at h
  · obtain rfl := Option.some.inj h; rfl
  · split at h
    · obtain rfl := Option.some.inj h; rfl
    · split at h
      · obtain rfl := Option.some.inj h; rfl
      · rename_i hW
        generalize hstAdef : (if pyStripWs line0 = "\x7d" then
            { st with in_stats_dump := false } else st) = stA at h
        have hstA : stA.status_codes = st.status_codes := by
          rw [← hstAdef]; split <;> rfl
        split at h
        · exact absurd h (by simp)
        · rename_i st1 hmid
          have hst1 : st1.status_codes = st.status_codes := by
            rw [← hstA]
            split at hmid
            · exact statDumpStep_status _ _ _ hmid
            · rw [Option.some.inj hmid]
          split at h
          · obtain rfl := Option.some.inj h
            rw [statFirstLineStep_status]
            exact hst1
          · obtain rfl := Option.some.inj h
            exact hst1

/-- Across the whole loop, `status_codes` keeps its initial value. -/
theorem foldlM_processLine_status :
    ∀ (lines : List String) (st0 st : LogParseState),
      lines.foldlM processLine st0 = some st → st.status_codes = st0.status_codes := by
  intro lines
  induction lines with
  | nil =>
      intro st0 st h
      obtain rfl := Option.some.inj h
      rfl
  | cons l ls ih =>
      intro st0 st h
      rw [List.foldlM_cons] at h
      obtain ⟨s1, h1, h2⟩ := Option.bind_eq_some.mp h
      rw [ih s1 st h2]
      exact processLine_status st0 l s1 h1

/-- C5 fails on the code (code bug): for every readable log on which the
analysis completes, the parsed per-status-code counts are empty and
`http_success_rate` is 0 — never the 2xx ratio.  `REGEX_RESPONSE_STATUS`
begins with a literal `'`, but it is matched against the key that was
already stripped of its quotes, so the status-code extraction never fires;
with an empty `status_codes` dict the 2xx sum is 0 and the computed rate is
0 whenever `total_responses > 0`, and 0 by the guard otherwise. -/
theorem log_http_success_rate_zero (lines : List String)
    (h : (analyzeLog lines).isSome = true) :
    (analyzeLog lines).map (fun r => r.1.status_codes) = some []
    ∧ (analyzeLog lines).map (fun r => r.2.http_success_rate) = some 0 := by
  obtain ⟨r, hr⟩ := Option.isSome_iff_exists.mp h
  obtain ⟨st, hst, hrest⟩ := Option.bind_eq_some.mp hr
  obtain ⟨sm, hsm, hpure⟩ := Option.bind_eq_some.mp hrest
  obtain rfl : (st, sm) = r := Option.some.inj hpure
  have hstatus : st.status_codes = [] := foldlM_processLine_status lines initLogState st hst
  have hrate : sm.http_success_rate = 0 := by
    unfold computeSummary at hsm
    dsimp only at hsm
    split at hsm
    · exact absurd hsm (by simp)
    · split at hsm
      · exact absurd hsm (by simp)
      · split at hsm
        · exact absurd hsm (by simp)
        · obtain rfl := Option.some.inj hsm
          show (if (0 : ℚ) < _ then _ else (0 : ℚ)) = (0 : ℚ)
          rw [hstatus]
          split <;> simp
  refine ⟨?_, ?_⟩ <;> rw [hr] <;> simp [hstatus, hrate]

/-- The stats dump of the claim: 80 of 100 responses are 200s. -/
def cexLogLines : List String :=
  ["2025-01-01 10:00:00 [scrapy.statscollectors] INFO: Dumping Scrapy stats:",
   "\x7b'downloader/request_bytes': 1234,",
   " 'downloader/response_count': 100,",
   " 'downloader/response_status_count/200': 80,",
   "\x7d"]

/-- Witness for `log_http_success_rate_zero` on the claim's own input: the
parse stores the 100 total responses and the 80 200-responses in
`raw_stats`, yet `status_codes` stays empty and the computed success rate is
0 — not the 80.0 the claim requires. -/
theorem log_http_success_rate_zero_witness :
    (analyzeLog cexLogLines).isSome = true
    ∧ (analyzeLog cexLogLines).map
        (fun r => getStatD r.1.raw_stats "downloader/response_count" (.num 0))
        = some (.num 100)
    ∧ (analyzeLog cexLogLines).map
        (fun r => getStatD r.1.raw_stats "downloader/response_status_count/200" (.num 0))
        = some (.num 80)
    ∧ (analyzeLog cexLogLines).map (fun r => r.1.status_codes) = some []
    ∧ (analyzeLog cexLogLines).map (fun r => r.2.http_success_rate) = some 0 :=
  ⟨by decide, by decide, by decide,
   (log_http_success_rate_zero cexLogLines (by decide)).1,
   (log_http_success_rate_zero cexLogLines (by decide)).2⟩

/-! ## Settings advisor (`settings_advisor_plugin.Plugin._analyze_settings`)

The settings source is embedded post-parse: the `ast.parse` outcome is
either the list of single-name `Assign` nodes in `ast.walk` order (as
`(name, value expression, lineno)` triples), a `SyntaxError`, or another
read/parse error; the raw `content` string is carried alongside for the
regex- and substring-based checks.  A `none` result models an exception
propagating out of `_analyze_settings` (the politeness checks compare
possibly non-numeric values with numbers).  -/

/-- Decimal rendering of a `Nat` (`str(n)` / f-string interpolation). -/
def natToCharsGo : Nat → Nat → List Char
  | 0, _ => []
  | fuel + 1, n =>
      if n < 10 then [Char.ofNat (48 + n)]
      else natToCharsGo fuel (n / 10) ++ [Char.ofNat (48 + n % 10)]

/-- `str(n)` for a natural number. -/
def natToString (n : Nat) : String := ⟨natToCharsGo (n + 1) n⟩

/-- A Python value produced by `ast.literal_eval` on a settings assignment
(the kinds the advisor's checks distinguish; containers behave like
`str` for every check the advisor performs — not comparable with numbers,
not a `str` instance match — and are omitted). -/
inductive PyVal where
  | bool (b : Bool)
  | num (q : ℚ)
  | str (s : String)
  | pynone
deriving Repr, DecidableEq

/-- The right-hand side of an assignment: a literal expression carrying its
value, or an expression `ast.literal_eval` cannot evaluate. -/
inductive VNode where
  | lit (v : PyVal)
  | nonLiteral
deriving Repr, DecidableEq

/-- `_get_node_value`: literal values evaluate; non-literal expressions
degrade to `None`.  A literal `None` is indistinguishable from the failure
case for every caller, exactly as in Python, so both map to `none`. -/
def getNodeValue : VNode → Option PyVal
  | .lit .pynone => none
  | .lit v => some v
  | .nonLiteral => none

/-- One result entry; keys absent from the Python dict are `none`. -/
structure Entry where
  message : String
  details : Option String
  file : String
  line : Option Nat
  url : Option String
deriving Repr, DecidableEq

/-- `{'warnings': [...], 'recommendations': [...], 'info': [...]}`. -/
structure SettingsResults where
  warnings : List Entry
  recommendations : List Entry
  info : List Entry
deriving Repr, DecidableEq

/-- Outcome of reading and `ast.parse`-ing the settings source. -/
inductive ParseOutcome where
  | ok (assigns : List (String × VNode × Nat))
  | syntaxError (lineno : Nat) (msg : String) (text : String)
  | otherError (msg : String)
deriving Repr, DecidableEq

/-- `settings_found[name] = {'value_node': ..., 'line': ...}` — dict
assignment while walking, so a later assignment of the same name wins. -/
def sfInsert (d : List (String × VNode × Nat)) (k : String) (v : VNode × Nat) :
    List (String × VNode × Nat) :=
  if d.any (·.1 == k) then d.map (fun e => if e.1 == k then (k, v) else e)
  else d ++ [(k, v)]

/-- The `settings_found` map built from the walked `Assign` nodes. -/
def buildSettings (assigns : List (String × VNode × Nat)) :
    List (String × VNode × Nat) :=
  assigns.foldl (fun d a => sfInsert d a.1 a.2) []

/-- `settings_found.get(name)`. -/
def sfind (d : List (String × VNode × Nat)) (k : String) : Option (VNode × Nat) :=
  (d.find? (·.1 == k)).map (·.2)

/-- One line matches `^\s*ROBOTSTXT_OBEY\s*=` (multiline search). -/
def lineHasRobotsAssign (l : String) : Bool :=
  let r := l.data.dropWhile Char.isWhitespace
  charsPrefix "ROBOTSTXT_OBEY".data r
    && charsPrefix "=".data
        ((r.drop "ROBOTSTXT_OBEY".data.length).dropWhile Char.isWhitespace)

/-- `re.search(r"^\s*ROBOTSTXT_OBEY\s*=", content, re.MULTILINE)`. -/
def robotsRegexFound (content : String) : Bool :=
  (splitLines content).any lineHasRobotsAssign

/-- One line matches the default-user-agent pattern
`^\s*#?\s*USER_AGENT\s*=\s*['\"]{project_name}` (the project name is
interpolated literally; modelled for names without regex
metacharacters). -/
def lineHasDefaultUa (pn : String) (l : String) : Bool :=
  let r0 := l.data.dropWhile Char.isWhitespace
  let r1 := match r0 with
    | '#' :: rest => rest.dropWhile Char.isWhitespace
    | _ => r0
  if charsPrefix "USER_AGENT".data r1 then
    match (r1.drop "USER_AGENT".data.length).dropWhile Char.isWhitespace with
    | '=' :: r3 =>
        match r3.dropWhile Char.isWhitespace with
        | '\'' :: r5 => charsPrefix pn.data r5
        | '"' :: r5 => charsPrefix pn.data r5
        | _ => false
    | _ => false
  else false

/-- One line matches `^\s*USER_AGENT\s*=\s*[^#]`. -/
def lineHasCustomUa (l : String) : Bool :=
  let r := l.data.dropWhile Char.isWhitespace
  if charsPrefix "USER_AGENT".data r then
    match (r.drop "USER_AGENT".data.length).dropWhile Char.isWhitespace with
    | '=' :: r3 =>
        match r3.dropWhile Char.isWhitespace with
        | c :: _ => !(c == '#')
        | [] => false
    | _ => false
  else false

/-- `re.search(default_ua_pattern, content, re.MULTILINE)`. -/
def uaDefaultFound (pn content : String) : Bool :=
  (splitLines content).any (lineHasDefaultUa pn)

/-- `re.search(custom_ua_pattern, content, re.MULTILINE)`. -/
def uaCustomFound (content : String) : Bool :=
  (splitLines content).any lineHasCustomUa

/-- The f-string rendering of a value (floats render as reduced fractions
here; only the `details` text of two recommendation entries depends on
it). -/
def pyRepr : PyVal → String
  | .bool true => "True"
  | .bool false => "False"
  | .num q =>
      if q.den = 1 then
        if q.num < 0 then "-" ++ natToString q.num.natAbs else natToString q.num.natAbs
      else
        (if q.num < 0 then "-" ++ natToString q.num.natAbs
         else natToString q.num.natAbs) ++ "/" ++ natToString q.den
  | .str s => s
  | .pynone => "None"

/-- f-string rendering of a value that may be Python `None`. -/
def pyReprOpt : Option PyVal → String
  | none => "None"
  | some v => pyRepr v

/-- `v < q` for a number `q`: booleans coerce to 0/1, numbers compare,
anything else raises `TypeError` (`none`). -/
def pyLtQ (v : PyVal) (q : ℚ) : Option Bool :=
  match v with
  | .bool b => some (decide ((if b then (1 : ℚ) else 0) < q))
  | .num x => some (decide (x < q))
  | .str _ => none
  | .pynone => none

/-- `v > q`, with Python `None` also raising. -/
def pyGtQOpt (o : Option PyVal) (q : ℚ) : Option Bool :=
  match o with
  | none => none
  | some (.bool b) => some (decide (q < if b then (1 : ℚ) else 0))
  | some (.num x) => some (decide (q < x))
  | some (.str _) => none
  | some .pynone => none

/-- The Scrapy settings documentation base. -/
def scrapyDocs : String := "https://docs.scrapy.org/en/latest/topics/"

/-- Warning emitted for `ROBOTSTXT_OBEY = False`. -/
def robotsWarnEntry (path : String) (ln : Nat) : Entry :=
  { message := "`ROBOTSTXT_OBEY` is set to False.",
    details := some "Ensure you have permission and understand the implications of ignoring robots.txt.",
    file := path, line := some ln,
    url := some (scrapyDocs ++ "settings.html#robotstxt-obey") }

/-- Info for an explicitly set (non-False-literal) `ROBOTSTXT_OBEY`. -/
def robotsSetInfoEntry (path : String) (ln : Nat) : Entry :=
  { message := "`ROBOTSTXT_OBEY` is explicitly set (likely True).",
    details := none, file := path, line := some ln,
    url := some (scrapyDocs ++ "settings.html#robotstxt-obey") }

/-- Info for a missing `ROBOTSTXT_OBEY`. -/
def robotsDefaultInfoEntry (path : String) : Entry :=
  { message := "`ROBOTSTXT_OBEY` is not explicitly set (defaults to True).",
    details := some "Scrapy respects robots.txt by default.",
    file := path, line := none,
    url := some (scrapyDocs ++ "settings.html#robotstxt-obey") }

/-- Recommendation for a default / missing `USER_AGENT`. -/
def uaDefaultRecEntry (path : String) (lineO : Option Nat) : Entry :=
  { message := if lineO.isSome then "Default `USER_AGENT` is likely used."
      else "`USER_AGENT` is likely commented out or missing.",
    details := some "Set a custom User-Agent identifying your bot (e.g., 'MyBot (+http://mywebsite.com)') for politeness.",
    file := path, line := lineO,
    url := some (scrapyDocs ++ "settings.html#user-agent") }

/-- Info for a custom `USER_AGENT`. -/
def uaCustomInfoEntry (path : String) (ln : Nat) : Entry :=
  { message := "Custom `USER_AGENT` seems to be set.",
    details := none, file := path, line := some ln,
    url := some (scrapyDocs ++ "settings.html#user-agent") }

/-- Recommendation for a low or unknown `DOWNLOAD_DELAY` without
autothrottle. -/
def lowDelayRecEntry (path : String) (lineO : Option Nat) (delayV : Option PyVal) : Entry :=
  { message := "Low/No `DOWNLOAD_DELAY` without AutoThrottle.",
    details := some ("Consider setting DOWNLOAD_DELAY >= 0.5 or enabling AUTOTHROTTLE_ENABLED for politeness. Current delay appears to be "
      ++ (match delayV with
          | none => "default (0)"
          | some v => pyRepr v) ++ "."),
    file := path, line := lineO,
    url := some (scrapyDocs ++ "settings.html#download-delay") }

/-- Recommendation for high concurrency without autothrottle. -/
def highConcRecEntry (path : String) (lineO : Option Nat) (dv iv : Option PyVal) : Entry :=
  { message := "High concurrency without AutoThrottle.",
    details := some ("Consider lowering CONCURRENT_REQUESTS_PER_DOMAIN/IP (currently ~"
      ++ pyReprOpt dv ++ "/" ++ pyReprOpt iv
      ++ ") or enabling AUTOTHROTTLE_ENABLED to avoid overloading servers."),
    file := path, line := lineO,
    url := some (scrapyDocs ++ "settings.html#concurrent-requests-per-domain") }

/-- Info for `AUTOTHROTTLE_ENABLED = True`. -/
def autothrottleInfoEntry (path : String) (lineO : Option Nat) : Entry :=
  { message := "`AUTOTHROTTLE_ENABLED` is True.",
    details := some "AutoThrottle adjusts delays/concurrency automatically.",
    file := path, line := lineO,
    url := some "https://docs.scrapy.org/en/latest/topics/autothrottle.html" }

/-- Recommendation for disabled HTTP caching. -/
def cacheRecEntry (path : String) (lineO : Option Nat) : Entry :=
  { message := "HTTP Caching is disabled.",
    details := some "Enable `HTTPCACHE_ENABLED = True` during development to speed up repeated crawls by caching requests.",
    file := path, line := lineO,
    url := some (scrapyDocs ++ "downloader-middleware.html#httpcache-middleware-settings") }

/-- Info for enabled HTTP caching. -/
def cacheInfoEntry (path : String) (ln : Nat) : Entry :=
  { message := "`HTTPCACHE_ENABLED` is True.",
    details := some "Caching requests can speed up development.",
    file := path, line := some ln,
    url := some (scrapyDocs ++ "downloader-middleware.html#httpcache-middleware-settings") }

/-- Info entry for a detected `scrapy_playwright` marker. -/
def pwInfoEntry (path : String) : Entry :=
  { message := "Playwright integration detected.",
    details := some "Ensure DOWNLOAD_HANDLERS and TWISTED_REACTOR are set correctly.",
    file := path, line := none, url := none }

/-- Info entry for a detected `scrapy_splash` marker. -/
def splashInfoEntry (path : String) : Entry :=
  { message := "Splash integration detected.",
    details := some "Ensure SPLASH_URL and relevant middlewares are configured.",
    file := path, line := none, url := none }

/-- Info entry for a detected `scrapy_redis` marker. -/
def redisInfoEntry (path : String) : Entry :=
  { message := "Scrapy-Redis integration detected.",
    details := some "Ensure SCHEDULER, DUPEFILTER_CLASS, and Redis connection settings are correct.",
    file := path, line := none, url := none }

/-- Info entry after a clean parse. -/
def syntaxOkInfoEntry (path : String) : Entry :=
  { message := "Syntax check passed.", details := none, file := path,
    line := none, url := none }

/-- Warning entry for a `SyntaxError`. -/
def syntaxErrEntry (path : String) (ln : Nat) (msg txt : String) : Entry :=
  { message := "Syntax error (line " ++ natToString ln ++ "): " ++ msg,
    details := some ("Near: " ++ txt), file := path, line := some ln,
    url := none }

/-- Warning entry for any other read/parse failure. -/
def readErrEntry (path : String) (msg : String) : Entry :=
  { message := "Could not read or parse settings file.",
    details := some ("Error: " ++ msg), file := path, line := none,
    url := none }

/-- The `ROBOTSTXT_OBEY` check: `(warnings, info)` entries it appends. -/
def robotsCheck (path content : String) (sf : List (String × VNode × Nat)) :
    List Entry × List Entry :=
  match sfind sf "ROBOTSTXT_OBEY" with
  | some (vn, ln) =>
      if getNodeValue vn == some (.bool false) then ([robotsWarnEntry path ln], [])
      else ([], [robotsSetInfoEntry path ln])
  | none =>
      if robotsRegexFound content then ([], [])
      else ([], [robotsDefaultInfoEntry path])

/-- The `USER_AGENT` check: `(recommendations, info)` entries. -/
def uaCheck (path content pn : String) (sf : List (String × VNode × Nat)) :
    List Entry × List Entry :=
  match sfind sf "USER_AGENT" with
  | some (vn, ln) =>
      match getNodeValue vn with
      | some (.str s) =>
          if strContains s pn then ([uaDefaultRecEntry path (some ln)], [])
          else ([], [uaCustomInfoEntry path ln])
      | _ => ([], [uaCustomInfoEntry path ln])
  | none =>
      if uaDefaultFound pn content || !uaCustomFound content then
        ([uaDefaultRecEntry path none], [])
      else ([], [])

/-- The `DOWNLOAD_DELAY` / `CONCURRENT_REQUESTS_*` / `AUTOTHROTTLE_ENABLED`
block: `(recommendations, info)` entries, or `none` when one of the Python
comparisons (`delay_value < 0.5`, `conc_* > 8`) raises `TypeError`. -/
def politenessCheck (path : String) (sf : List (String × VNode × Nat)) :
    Option (List Entry × List Entry) :=
  let delayS := sfind sf "DOWNLOAD_DELAY"
  let concD := sfind sf "CONCURRENT_REQUESTS_PER_DOMAIN"
  let concI := sfind sf "CONCURRENT_REQUESTS_PER_IP"
  let autoS := sfind sf "AUTOTHROTTLE_ENABLED"
  let autoOn : Bool :=
    match autoS with
    | some (vn, _) => getNodeValue vn == some (.bool true)
    | none => false
  let delayV : Option PyVal :=
    match delayS with
    | some (vn, _) => getNodeValue vn
    | none => some (.num 0)
  let concDV : Option PyVal :=
    match concD with
    | some (vn, _) => getNodeValue vn
    | none => some (.num 16)
  let concIV : Option PyVal :=
    match concI with
    | some (vn, _) => getNodeValue vn
    | none => some (.num 16)
  if autoOn then
    some ([], [autothrottleInfoEntry path
      (match autoS with | some (_, ln) => some ln | none => none)])
  else
    -- `if delay_value is None or delay_value < 0.5:`
    match (match delayV with
           | none => some true
           | some v => pyLtQ v (mkRat 1 2)) with
    | none => none
    | some lowDelay =>
        -- `if conc_domain_value > 8 or conc_ip_value > 8:` (short-circuit)
        match (match pyGtQOpt concDV 8 with
               | none => none
               | some true => some true
               | some false => pyGtQOpt concIV 8) with
        | none => none
        | some hi =>
            some ((if lowDelay then
                [lowDelayRecEntry path
                  (match delayS with | some (_, ln) => some ln | none => none)
                  delayV]
              else []) ++
              (if hi then
                [highConcRecEntry path
                  (match concD with
                   | some (_, ln) => some ln
                   | none => match concI with
                     | some (_, ln) => some ln
                     | none => none)
                  concDV concIV]
              else []), [])

/-- The `HTTPCACHE_ENABLED` check: `(recommendations, info)` entries. -/
def cacheCheck (path : String) (sf : List (String × VNode × Nat)) :
    List Entry × List Entry :=
  match sfind sf "HTTPCACHE_ENABLED" with
  | none => ([cacheRecEntry path none], [])
  | some (vn, ln) =>
      if getNodeValue vn == some (.bool false) then ([cacheRecEntry path (some ln)], [])
      else ([], [cacheInfoEntry path ln])

/-- The plain substring checks for known extensions (info entries). -/
def extensionInfos (path content : String) : List Entry :=
  (if strContains content "scrapy_playwright" then [pwInfoEntry path] else [])
  ++ (if strContains content "scrapy_splash" then [splashInfoEntry path] else [])
  ++ (if strContains content "scrapy_redis" then [redisInfoEntry path] else [])

/-- `_analyze_settings`, with the entry lists accumulated in source
execution order (syntax handling, robots, user agent, politeness, cache,
extensions). -/
def analyzeSettings (path pn content : String) (parse : ParseOutcome) :
    Option SettingsResults :=
  match parse with
  | .otherError msg =>
      -- unreadable file: early return with only this warning
      some { warnings := [readErrEntry path msg], recommendations := [], info := [] }
  | _ =>
      let warn0 : List Entry :=
        match parse with
        | .syntaxError ln msg txt => [syntaxErrEntry path ln msg txt]
        | _ => []
      let info0 : List Entry :=
        match parse with
        | .ok _ => [syntaxOkInfoEntry path]
        | _ => []
      let sf := match parse with
        | .ok assigns => buildSettings assigns
        | _ => []
      let rres := robotsCheck path content sf
      let ures := uaCheck path content pn sf
      match politenessCheck path sf with
      | none => none
      | some pres =>
          let cres := cacheCheck path sf
          some { warnings := warn0 ++ rres.1,
                 recommendations := ures.1 ++ pres.1 ++ cres.1,
                 info := info0 ++ rres.2 ++ ures.2 ++ pres.2 ++ cres.2
                   ++ extensionInfos path content }

/-! ## C6 / C7 / C8 theorems -/

/-- C6 (amended): if the settings source parses, its effective (last in
walk order) `ROBOTSTXT_OBEY` assignment assigns the literal `False`, and the
analysis completes without raising, then the result's warnings list is
exactly one entry — the `ROBOTSTXT_OBEY` warning — and it carries that
assignment's line number.  (Both extra hypotheses are required:
`settings_found` keeps only the last assignment of a name, and a non-numeric
politeness literal elsewhere in the file makes `_analyze_settings` raise,
see `robots_false_single_warning_cex`.) -/
theorem robots_false_single_warning (path pn content : String)
    (assigns : List (String × VNode × Nat)) (L : Nat) (r : SettingsResults)
    (hfound : sfind (buildSettings assigns) "ROBOTSTXT_OBEY"
      = some (VNode.lit (PyVal.bool false), L))
    (hr : analyzeSettings path pn content (.ok assigns) = some r) :
    r.warnings = [robotsWarnEntry path L]
    ∧ (robotsWarnEntry path L).line = some L := by
  have hrc : robotsCheck path content (buildSettings assigns)
      = ([robotsWarnEntry path L], []) := by
    unfold robotsCheck
    rw [hfound]
    rfl
  unfold analyzeSettings at hr
  dsimp only at hr
  rw [hrc] at hr
  split at hr
  · exact absurd hr (by simp)
  · obtain rfl := Option.some.inj hr
    exact ⟨rfl, rfl⟩

/-- Counterexample to C6 as stated: a syntactically valid source assigning
`ROBOTSTXT_OBEY = False` (line 1) and `DOWNLOAD_DELAY = "fast"` (line 2)
makes `_analyze_settings` raise a `TypeError` (comparing `"fast" < 0.5`), so
no result — let alone one with exactly one warning — is returned. -/
theorem robots_false_single_warning_cex :
    sfind (buildSettings
        [("ROBOTSTXT_OBEY", VNode.lit (PyVal.bool false), 1),
         ("DOWNLOAD_DELAY", VNode.lit (PyVal.str "fast"), 2)]) "ROBOTSTXT_OBEY"
      = some (VNode.lit (PyVal.bool false), 1)
    ∧ analyzeSettings "settings.py" "p" ""
        (.ok [("ROBOTSTXT_OBEY", VNode.lit (PyVal.bool false), 1),
              ("DOWNLOAD_DELAY", VNode.lit (PyVal.str "fast"), 2)]) = none := by
  decide

/-- Witness for `robots_false_single_warning`: a source whose only
assignment is `ROBOTSTXT_OBEY = False` on line 22 yields exactly the one
warning, carrying line 22. -/
theorem robots_false_single_warning_witness :
    sfind (buildSettings [("ROBOTSTXT_OBEY", VNode.lit (PyVal.bool false), 22)])
        "ROBOTSTXT_OBEY" = some (VNode.lit (PyVal.bool false), 22)
    ∧ (analyzeSettings "settings.py" "p" "x"
        (.ok [("ROBOTSTXT_OBEY", VNode.lit (PyVal.bool false), 22)])).map
        SettingsResults.warnings = some [robotsWarnEntry "settings.py" 22] := by
  refine ⟨by decide, ?_⟩
  rcases hr : analyzeSettings "settings.py" "p" "x"
      (.ok [("ROBOTSTXT_OBEY", VNode.lit (PyVal.bool false), 22)]) with _ | r
  · exact absurd hr (by decide)
  · have hw := (robots_false_single_warning "settings.py" "p" "x" _ 22 r
      (by decide) hr).1
    simp [hw]

/-- C7: a settings source whose text fails to parse with a `SyntaxError`
does not crash the advisor: it returns a result whose warnings list is
exactly the one entry reporting the parse error and its line, and the
substring-based extension checks still run on the raw text and add their
info entries. -/
theorem syntax_error_degrades (path pn content : String) (ln : Nat)
    (msg txt : String) :
    ∃ r, analyzeSettings path pn content (.syntaxError ln msg txt) = some r
      ∧ r.warnings = [syntaxErrEntry path ln msg txt]
      ∧ (strContains content "scrapy_playwright" = true → pwInfoEntry path ∈ r.info)
      ∧ (strContains content "scrapy_splash" = true → splashInfoEntry path ∈ r.info)
      ∧ (strContains content "scrapy_redis" = true → redisInfoEntry path ∈ r.info) := by
  have hrc1 : (robotsCheck path content []).1 = [] := by
    unfold robotsCheck
    simp only [sfind, List.find?_nil, Option.map_none']
    split <;> rfl
  refine ⟨_, rfl, ?_, ?_, ?_, ?_⟩
  · show [syntaxErrEntry path ln msg txt] ++ (robotsCheck path content []).1
      = [syntaxErrEntry path ln msg txt]
    rw [hrc1]
    simp
  · intro hc; simp [extensionInfos, hc]
  · intro hc; simp [extensionInfos, hc]
  · intro hc; simp [extensionInfos, hc]

/-- Witness for `syntax_error_degrades`: a broken source mentioning all
three extensions still yields the syntax warning plus their info
entries. -/
theorem syntax_error_degrades_witness :
    analyzeSettings "settings.py" "proj"
        "import scrapy_playwright\nimport scrapy_splash\nimport scrapy_redis\n("
        (.syntaxError 4 "unexpected EOF" "(")
      = some ((analyzeSettings "settings.py" "proj"
          "import scrapy_playwright\nimport scrapy_splash\nimport scrapy_redis\n("
          (.syntaxError 4 "unexpected EOF" "(")).getD ⟨[], [], []⟩)
    ∧ ((analyzeSettings "settings.py" "proj"
          "import scrapy_playwright\nimport scrapy_splash\nimport scrapy_redis\n("
          (.syntaxError 4 "unexpected EOF" "(")).getD ⟨[], [], []⟩).warnings
        = [syntaxErrEntry "settings.py" 4 "unexpected EOF" "("]
    ∧ pwInfoEntry "settings.py" ∈ ((analyzeSettings "settings.py" "proj"
          "import scrapy_playwright\nimport scrapy_splash\nimport scrapy_redis\n("
          (.syntaxError 4 "unexpected EOF" "(")).getD ⟨[], [], []⟩).info
    ∧ splashInfoEntry "settings.py" ∈ ((analyzeSettings "settings.py" "proj"
          "import scrapy_playwright\nimport scrapy_splash\nimport scrapy_redis\n("
          (.syntaxError 4 "unexpected EOF" "(")).getD ⟨[], [], []⟩).info
    ∧ redisInfoEntry "settings.py" ∈ ((analyzeSettings "settings.py" "proj"
          "import scrapy_playwright\nimport scrapy_splash\nimport scrapy_redis\n("
          (.syntaxError 4 "unexpected EOF" "(")).getD ⟨[], [], []⟩).info := by
  obtain ⟨r, hr, hw, h1, h2, h3⟩ := syntax_error_degrades "settings.py" "proj"
    "import scrapy_playwright\nimport scrapy_splash\nimport scrapy_redis\n("
    4 "unexpected EOF" "("
  rw [hr]
  simp only [Option.getD_some]
  exact ⟨trivial, hw, h1 (by decide), h2 (by decide), h3 (by decide)⟩

/-- C8 (amended): a non-literal assigned value does evaluate to "unknown"
(`_get_node_value` returns `None`), and for `ROBOTSTXT_OBEY` this suppresses
the value warning (no warning is emitted at all) — but the value-based
checks are not generally skipped: a non-literal `DOWNLOAD_DELAY` (without
autothrottle) still triggers the low-delay recommendation, carrying the
non-literal assignment's own line number. -/
theorem nonliteral_values_unknown :
    getNodeValue VNode.nonLiteral = none
    ∧ (∀ (path pn content : String) (assigns : List (String × VNode × Nat))
        (L : Nat) (r : SettingsResults),
        sfind (buildSettings assigns) "ROBOTSTXT_OBEY" = some (VNode.nonLiteral, L) →
        analyzeSettings path pn content (.ok assigns) = some r →
        r.warnings = [])
    ∧ (∀ (path pn content : String) (assigns : List (String × VNode × Nat))
        (L : Nat) (r : SettingsResults),
        sfind (buildSettings assigns) "DOWNLOAD_DELAY" = some (VNode.nonLiteral, L) →
        sfind (buildSettings assigns) "AUTOTHROTTLE_ENABLED" = none →
        analyzeSettings path pn content (.ok assigns) = some r →
        lowDelayRecEntry path (some L) none ∈ r.recommendations) := by
  refine ⟨rfl, ?_, ?_⟩
  · intro path pn content assigns L r hfound hr
    have hrc : robotsCheck path content (buildSettings assigns)
        = ([], [robotsSetInfoEntry path L]) := by
      unfold robotsCheck
      rw [hfound]
      rfl
    unfold analyzeSettings at hr
    dsimp only at hr
    rw [hrc] at hr
    split at hr
    · exact absurd hr (by simp)
    · obtain rfl := Option.some.inj hr
      rfl
  · intro path pn content assigns L r hdelay hauto hr
    have hpol : ∀ pres, politenessCheck path (buildSettings assigns) = some pres →
        lowDelayRecEntry path (some L) none ∈ pres.1 := by
      intro pres hp
      unfold politenessCheck at hp
      rw [hdelay, hauto] at hp
      simp only [getNodeValue] at hp
      split at hp
      · rename_i hfalse
        exact absurd hfalse (by simp)
      · split at hp
        · exact absurd hp (by simp)
        · obtain rfl := Option.some.inj hp
          refine List.mem_append_left _ ?_
          simp
    unfold analyzeSettings at hr
    dsimp only at hr
    split at hr
    · exact absurd hr (by simp)
    · rename_i pres hp
      obtain rfl := Option.some.inj hr
      have hm := hpol pres hp
      simp only [SettingsResults.recommendations]
      exact List.mem_append_left _ (List.mem_append_right _ hm)

/-- Counterexample to C8 as stated: a source whose only assignment is a
non-literal `DOWNLOAD_DELAY` (line 7) makes the advisor emit the low-delay
recommendation tied to that very assignment's line — not "no warning,
recommendation, or info entry". -/
theorem nonliteral_values_unknown_cex :
    sfind (buildSettings [("DOWNLOAD_DELAY", VNode.nonLiteral, 7)]) "DOWNLOAD_DELAY"
      = some (VNode.nonLiteral, 7)
    ∧ lowDelayRecEntry "settings.py" (some 7) none ∈
        ((analyzeSettings "settings.py" "p" "x"
          (.ok [("DOWNLOAD_DELAY", VNode.nonLiteral, 7)])).getD ⟨[], [], []⟩).recommendations := by
  decide

/-- Witness for `nonliteral_values_unknown`: a source with non-literal
`ROBOTSTXT_OBEY` (line 3) and `DOWNLOAD_DELAY` (line 7): no warnings, but
the low-delay recommendation for line 7 is present. -/
theorem nonliteral_values_unknown_witness :
    sfind (buildSettings [("ROBOTSTXT_OBEY", VNode.nonLiteral, 3),
        ("DOWNLOAD_DELAY", VNode.nonLiteral, 7)]) "ROBOTSTXT_OBEY"
      = some (VNode.nonLiteral, 3)
    ∧ sfind (buildSettings [("ROBOTSTXT_OBEY", VNode.nonLiteral, 3),
        ("DOWNLOAD_DELAY", VNode.nonLiteral, 7)]) "DOWNLOAD_DELAY"
      = some (VNode.nonLiteral, 7)
    ∧ ((analyzeSettings "settings.py" "q" "y"
        (.ok [("ROBOTSTXT_OBEY", VNode.nonLiteral, 3),
              ("DOWNLOAD_DELAY", VNode.nonLiteral, 7)])).getD ⟨[], [], []⟩).warnings = []
    ∧ lowDelayRecEntry "settings.py" (some 7) none ∈
        ((analyzeSettings "settings.py" "q" "y"
          (.ok [("ROBOTSTXT_OBEY", VNode.nonLiteral, 3),
                ("DOWNLOAD_DELAY", VNode.nonLiteral, 7)])).getD ⟨[], [], []⟩).recommendations := by
  refine ⟨by decide, by decide, ?_, ?_⟩ <;>
    rcases hr : analyzeSettings "settings.py" "q" "y"
        (.ok [("ROBOTSTXT_OBEY", VNode.nonLiteral, 3),
              ("DOWNLOAD_DELAY", VNode.nonLiteral, 7)]) with _ | r
  · exact absurd hr (by decide)
  · rw [Option.getD_some]
    exact (nonliteral_values_unknown).2.1 "settings.py" "q" "y" _ 3 r (by decide) hr
  · exact absurd hr (by decide)
  · rw [Option.getD_some]
    exact (nonliteral_values_unknown).2.2 "settings.py" "q" "y" _ 7 r (by decide)
      (by decide) hr

end SpiderPlugins
